import Mathlib

/-!
Shallow embedding of the signal-to-order execution pipeline of the
mt5-gateway repository (app/mt5/trading.py and app/mt5/account.py).

Python floats are modelled as exact rationals (ℚ), timestamps as integer
seconds (ℤ).  Python truthiness of optional numbers (`if x:` is false for
`None` and for `0`/`0.0`) is modelled by the `truthyZ`/`truthyQ` helpers,
and Python's `a or b` on an optional float by `orElseQ`.  The broker
terminal (the `MetaTrader5` library plus the `MT5Client` wrapper) is
modelled as an explicit environment record `Broker`; functions that in the
source send orders additionally return the list of trade requests they
submitted, so that "no broker call was made" is a provable statement.
The engine's mutable idempotency cache is modelled by explicit state
passing of an association list.
-/

namespace MT5Gateway

/-- Order sides, mirroring the `OrderSide` enum of trading.py. -/
inductive OrderSide where
  | buy
  | sell
deriving DecidableEq

/-- Order kinds, mirroring the `OrderType` enum of trading.py. -/
inductive OrderType where
  | market
  | limit
  | stop
  | stop_limit
deriving DecidableEq

/-- Risk specification, mirroring the `RiskConfig` dataclass of trading.py. -/
structure RiskConfig where
  percent : ℚ
  fixed_amount : Option ℚ := none
  max_risk_per_trade : ℚ := 2
deriving DecidableEq

/-- Stop-loss specification, mirroring `StopLossConfig` of trading.py. -/
structure StopLossConfig where
  pips : Option ℤ := none
  price : Option ℚ := none
  atr_multiplier : Option ℚ := none
deriving DecidableEq

/-- Take-profit specification, mirroring `TakeProfitConfig` of trading.py. -/
structure TakeProfitConfig where
  pips : Option ℤ := none
  price : Option ℚ := none
  risk_reward_ratio : Option ℚ := none
deriving DecidableEq

/-- Trading signal, mirroring the `TradingSignal` dataclass of trading.py. -/
structure TradingSignal where
  strategy : String
  symbol : String
  side : OrderSide
  order_type : OrderType
  risk : RiskConfig
  sl : StopLossConfig
  tp : TakeProfitConfig
  price : Option ℚ := none
  comment : String := ""
  idempotency_key : String := ""
  magic_number : ℤ := 0
deriving DecidableEq

/-- Order result, mirroring the `OrderResult` dataclass of trading.py.
The `server_time` field keeps the raw broker timestamp. -/
structure OrderResult where
  success : Bool
  order_id : Option ℤ := none
  position_id : Option ℤ := none
  executed_price : Option ℚ := none
  sl_price : Option ℚ := none
  tp_price : Option ℚ := none
  lot_size : Option ℚ := none
  error_message : Option String := none
  server_time : Option ℤ := none
deriving DecidableEq

/-- Symbol metadata, mirroring the `SymbolInfo` dataclass of app/mt5/__init__.py
(the shape returned by `MT5Client.get_symbol_info`). -/
structure SymbolInfo where
  name : String
  digits : ℤ
  point : ℚ
  tick_value : ℚ
  contract_size : ℚ
  margin_required : ℚ
  spread : ℤ
  is_trade_allowed : Bool
deriving DecidableEq

/-- Account information dictionary as returned by `MT5Client.get_account_info`. -/
structure AccountInfo where
  login : ℤ
  server : String
  balance : ℚ
  equity : ℚ
  margin : ℚ
  free_margin : ℚ
  margin_level : ℚ
  currency : String
  leverage : ℤ
  profit : ℚ
  company : String
  name : String
  server_time : ℤ
deriving DecidableEq

/-- Account summary, mirroring the `AccountSummary` dataclass of account.py. -/
structure AccountSummary where
  login : ℤ
  server : String
  balance : ℚ
  equity : ℚ
  margin : ℚ
  free_margin : ℚ
  margin_level : ℚ
  currency : String
  leverage : ℤ
  profit : ℚ
  company : String
  name : String
  server_time : ℤ
deriving DecidableEq

/-- Margin information, mirroring the `MarginInfo` dataclass of account.py. -/
structure MarginInfo where
  symbol : String
  margin_required : ℚ
  margin_mode : ℤ
  margin_currency : String
  margin_rate : ℚ
deriving DecidableEq

/-- Fields of the raw `mt5.symbol_info(...)` library object that account.py reads. -/
structure RawSymbolInfo where
  margin_required : ℚ
  margin_mode : ℤ
  margin_currency : String
  margin_rate : ℚ
  trade_contract_size : ℚ
deriving DecidableEq

/-- Current tick as returned by `mt5.symbol_info_tick`. -/
structure Tick where
  ask : ℚ
  bid : ℚ
deriving DecidableEq

/-- Fields of an open-position object that modify_position/close_position read. -/
structure Position where
  ticket : ℤ
  symbol : String
  type : ℤ
  volume : ℚ
  price_open : ℚ
  price_current : ℚ
  sl : ℚ
  tp : ℚ
  profit : ℚ
  swap : ℚ
  comment : String
  magic : ℤ
  time : ℤ
deriving DecidableEq

/-- Trade request dictionary passed to `mt5.order_send`; keys that a given
request does not carry are `none`. -/
structure TradeRequest where
  action : ℤ
  symbol : String
  volume : Option ℚ := none
  type : Option ℤ := none
  price : Option ℚ := none
  sl : Option ℚ := none
  tp : Option ℚ := none
  deviation : Option ℤ := none
  magic : Option ℤ := none
  comment : Option String := none
  position : Option ℤ := none
  type_time : Option ℤ := none
  type_filling : Option ℤ := none
deriving DecidableEq

/-- Result object returned by `mt5.order_send`. -/
structure OrderSendResult where
  retcode : ℤ
  order : ℤ
  position : ℤ
  price : ℚ
  time : ℤ
  comment : String
deriving DecidableEq

/-- MetaTrader library constant `TRADE_ACTION_DEAL` (MQL5 value). -/
def TRADE_ACTION_DEAL : ℤ := 1

/-- MetaTrader library constant `TRADE_ACTION_SLTP` (MQL5 value). -/
def TRADE_ACTION_SLTP : ℤ := 6

/-- MetaTrader library constant `ORDER_TYPE_BUY` (MQL5 value). -/
def ORDER_TYPE_BUY : ℤ := 0

/-- MetaTrader library constant `ORDER_TYPE_SELL` (MQL5 value). -/
def ORDER_TYPE_SELL : ℤ := 1

/-- MetaTrader library constant `ORDER_TIME_GTC` (MQL5 value). -/
def ORDER_TIME_GTC : ℤ := 0

/-- MetaTrader library constant `ORDER_FILLING_IOC` (MQL5 value). -/
def ORDER_FILLING_IOC : ℤ := 1

/-- MetaTrader library constant `TRADE_RETCODE_DONE` (MQL5 value). -/
def TRADE_RETCODE_DONE : ℤ := 10009

/-- MetaTrader library constant `POSITION_TYPE_BUY` (MQL5 value). -/
def POSITION_TYPE_BUY : ℤ := 0

/-- MetaTrader library constant `SYMBOL_CALC_MODE_FOREX` (MQL5 value). -/
def SYMBOL_CALC_MODE_FOREX : ℤ := 0

/-- MetaTrader library constant `SYMBOL_CALC_MODE_FUTURES` (MQL5 value). -/
def SYMBOL_CALC_MODE_FUTURES : ℤ := 2

/-- Environment record bundling every broker-terminal operation the embedded
functions consult.  `get_symbol_info` and `get_account_info` are the
`MT5Client` accessors; `raw_symbol_info`, `symbol_info_tick`, `order_send`
and `positions_by_ticket` are the raw library calls. -/
structure Broker where
  subscribe_symbol : String → Bool
  get_symbol_info : String → Option SymbolInfo
  get_account_info : Option AccountInfo
  symbol_info_tick : String → Option Tick
  raw_symbol_info : String → Option RawSymbolInfo
  order_send : TradeRequest → OrderSendResult
  positions_by_ticket : ℤ → List Position

/-- Python truthiness of an optional integer: `None` and `0` are falsy. -/
def truthyZ : Option ℤ → Bool
  | none => false
  | some v => v != 0

/-- Python truthiness of an optional float: `None` and `0.0` are falsy. -/
def truthyQ : Option ℚ → Bool
  | none => false
  | some v => v != 0

/-- Python expression `a or b` for an optional float `a` and a float `b`. -/
def orElseQ (a : Option ℚ) (b : ℚ) : ℚ :=
  match a with
  | some v => if v ≠ 0 then v else b
  | none => b

/-- Python's built-in `round` to an integer: round to nearest, ties to the
even integer (banker's rounding). -/
def roundHalfEven (q : ℚ) : ℤ :=
  let f := ⌊q⌋
  if q - f < 1 / 2 then f
  else if 1 / 2 < q - f then f + 1
  else if f % 2 = 0 then f else f + 1

/-- Configuration fields of app/config.py consumed by the trading engine. -/
structure Config where
  MIN_LOT_SIZE : ℚ := 1 / 100
  MAX_LOT_SIZE : ℚ := 100
  LOT_STEP : ℚ := 1 / 100
  STOP_LEVEL_PIPS : ℤ := 5
deriving DecidableEq

/-- Idempotency cache: key to first-seen timestamp, as an association list
standing for the Python dict (insertion order preserved, keys unique). -/
abbrev Cache := List (String × ℤ)

/-- Lookup in the idempotency cache (Python `key in dict` / `dict[key]`). -/
def cache_lookup : Cache → String → Option ℤ
  | [], _ => none
  | (k, v) :: rest, key => if k = key then some v else cache_lookup rest key

/-- Retention window of the idempotency cache, `self.idempotency_ttl = 3600`. -/
def idempotency_ttl : ℤ := 3600

/-- Translation of `TradingEngine.validate_idempotency` (trading.py lines
196-215).  `now` stands for `datetime.utcnow()`.  Returns the boolean result
together with the cache state after the call: an empty key admits without
touching the cache; a key already present (regardless of its age) rejects
without touching the cache; otherwise the key is recorded at `now` and
entries with timestamp not after `now - idempotency_ttl` are swept out. -/
def validate_idempotency (cache : Cache) (now : ℤ) (idempotency_key : String) :
    Bool × Cache :=
  if idempotency_key = "" then (true, cache)
  else
    match cache_lookup cache idempotency_key with
    | some _ => (false, cache)
    | none =>
      let cache2 : Cache := cache ++ [(idempotency_key, now)]
      let cutoff := now - idempotency_ttl
      (true, cache2.filter (fun kv => decide (cutoff < kv.2)))

/-- Translation of `TradingEngine.calculate_lot_size` (trading.py lines
87-135).  `none` stands for the Python `None` returns (missing symbol info,
missing account info, or non-positive loss per lot). -/
def calculate_lot_size (b : Broker) (config : Config) (symbol : String)
    (risk_config : RiskConfig) (sl_points : ℚ) : Option ℚ :=
  match b.get_symbol_info symbol with
  | none => none
  | some symbol_info =>
    match b.get_account_info with
    | none => none
    | some account_info =>
      let balance := account_info.balance
      let risk_amount :=
        if truthyQ risk_config.fixed_amount then risk_config.fixed_amount.getD 0
        else balance * (risk_config.percent / 100)
      let max_risk := balance * (risk_config.max_risk_per_trade / 100)
      let risk_amount := min risk_amount max_risk
      let point_value := symbol_info.tick_value * symbol_info.contract_size
      let loss_per_lot := sl_points * symbol_info.point * point_value
      if loss_per_lot ≤ 0 then none
      else
        let lot_size := risk_amount / loss_per_lot
        let lot_size := max lot_size config.MIN_LOT_SIZE
        let lot_size := min lot_size config.MAX_LOT_SIZE
        let lot_size := (roundHalfEven (lot_size / config.LOT_STEP) : ℚ) * config.LOT_STEP
        some lot_size

/-- Stop-loss block of `TradingEngine.calculate_sl_tp_prices` (trading.py
lines 149-157): pip distance if truthy, else explicit price if truthy. -/
def resolve_sl_price (symbol_info : SymbolInfo) (side : OrderSide)
    (entry_price : ℚ) (sl_config : StopLossConfig) : Option ℚ :=
  if truthyZ sl_config.pips then
    let pip_value := (sl_config.pips.getD 0 : ℚ) * symbol_info.point
    if side = OrderSide.buy then some (entry_price - pip_value)
    else some (entry_price + pip_value)
  else if truthyQ sl_config.price then sl_config.price
  else none

/-- Take-profit block of `TradingEngine.calculate_sl_tp_prices` (trading.py
lines 159-174): pip distance if truthy, else explicit price if truthy, else
risk:reward ratio when both it and the resolved stop price are truthy. -/
def resolve_tp_price (symbol_info : SymbolInfo) (side : OrderSide)
    (entry_price : ℚ) (tp_config : TakeProfitConfig) (sl_price : Option ℚ) :
    Option ℚ :=
  if truthyZ tp_config.pips then
    let pip_value := (tp_config.pips.getD 0 : ℚ) * symbol_info.point
    if side = OrderSide.buy then some (entry_price + pip_value)
    else some (entry_price - pip_value)
  else if truthyQ tp_config.price then tp_config.price
  else if truthyQ tp_config.risk_reward_ratio ∧ truthyQ sl_price then
    let risk := |entry_price - sl_price.getD 0|
    let reward := risk * tp_config.risk_reward_ratio.getD 0
    if side = OrderSide.buy then some (entry_price + reward)
    else some (entry_price - reward)
  else none

/-- Translation of `TradingEngine.calculate_sl_tp_prices` (trading.py lines
137-194): resolve both legs, then push each truthy leg that is closer to the
entry than `STOP_LEVEL_PIPS * point` out to exactly that distance, on the
side implied by the order direction. -/
def calculate_sl_tp_prices (b : Broker) (config : Config) (symbol : String)
    (side : OrderSide) (entry_price : ℚ) (sl_config : StopLossConfig)
    (tp_config : TakeProfitConfig) : Option ℚ × Option ℚ :=
  match b.get_symbol_info symbol with
  | none => (none, none)
  | some symbol_info =>
    let sl_price := resolve_sl_price symbol_info side entry_price sl_config
    let tp_price := resolve_tp_price symbol_info side entry_price tp_config sl_price
    let min_distance := (config.STOP_LEVEL_PIPS : ℚ) * symbol_info.point
    let sl_price :=
      if truthyQ sl_price ∧ |entry_price - sl_price.getD 0| < min_distance then
        if side = OrderSide.buy then some (entry_price - min_distance)
        else some (entry_price + min_distance)
      else sl_price
    let tp_price :=
      if truthyQ tp_price ∧ |entry_price - tp_price.getD 0| < min_distance then
        if side = OrderSide.buy then some (entry_price + min_distance)
        else some (entry_price - min_distance)
      else tp_price
    (sl_price, tp_price)

/-- Stop-distance derivation inside `execute_signal` (trading.py lines
252-257): explicit pips if truthy, else distance between the current price
and a truthy explicit stop price converted to points, else 0. -/
def derive_sl_points (sl : StopLossConfig) (current_price : ℚ) (point : ℚ) : ℚ :=
  if truthyZ sl.pips then (sl.pips.getD 0 : ℚ)
  else if truthyQ sl.price then |current_price - sl.price.getD 0| / point
  else 0

/-- Failure result carrying only an error message, as built by the early
returns of trading.py. -/
def fail_result (msg : String) : OrderResult :=
  { success := false, error_message := some msg }

/-- Body of `TradingEngine.execute_signal` after the idempotency check
(trading.py lines 227-309).  Returns the order result together with the
list of `mt5.order_send` requests issued (empty on every early return). -/
def execute_signal_core (b : Broker) (config : Config) (signal : TradingSignal) :
    OrderResult × List TradeRequest :=
  if b.subscribe_symbol signal.symbol = false then
    (fail_result ("Symbol " ++ signal.symbol ++ " nicht verfügbar"), [])
  else
    match b.get_symbol_info signal.symbol with
    | none =>
      (fail_result ("Symbol-Info für " ++ signal.symbol ++ " nicht verfügbar"), [])
    | some symbol_info =>
      match b.symbol_info_tick signal.symbol with
      | none =>
        (fail_result ("Aktueller Preis für " ++ signal.symbol ++ " nicht verfügbar"), [])
      | some tick =>
        let current_price := if signal.side = OrderSide.buy then tick.ask else tick.bid
        let sl_points := derive_sl_points signal.sl current_price symbol_info.point
        match calculate_lot_size b config signal.symbol signal.risk sl_points with
        | none => (fail_result "Lot-Größe konnte nicht berechnet werden", [])
        | some lot_size =>
          if lot_size = 0 then
            (fail_result "Lot-Größe konnte nicht berechnet werden", [])
          else
            let prices := calculate_sl_tp_prices b config signal.symbol signal.side
              current_price signal.sl signal.tp
            let sl_price := prices.1
            let tp_price := prices.2
            let order_type :=
              if signal.side = OrderSide.buy then ORDER_TYPE_BUY else ORDER_TYPE_SELL
            let request : TradeRequest :=
              { action := TRADE_ACTION_DEAL
                symbol := signal.symbol
                volume := some lot_size
                type := some order_type
                price := some current_price
                sl := some (orElseQ sl_price 0)
                tp := some (orElseQ tp_price 0)
                deviation := some 20
                magic := some signal.magic_number
                comment := some signal.comment
                type_time := some ORDER_TIME_GTC
                type_filling := some ORDER_FILLING_IOC }
            let result := b.order_send request
            if result.retcode ≠ TRADE_RETCODE_DONE then
              (fail_result ("Order fehlgeschlagen: " ++ result.comment), [request])
            else
              ({ success := true
                 order_id := some result.order
                 position_id := some result.position
                 executed_price := some result.price
                 sl_price := sl_price
                 tp_price := tp_price
                 lot_size := some lot_size
                 server_time := some result.time }, [request])

/-- Translation of `TradingEngine.execute_signal` (trading.py lines 217-316).
`now` stands for the wall clock read by the idempotency check.  Returns the
order result, the idempotency cache after the call (the only engine state the
method mutates), and the list of broker order-submission requests issued. -/
def execute_signal (b : Broker) (config : Config) (cache : Cache) (now : ℤ)
    (signal : TradingSignal) : OrderResult × Cache × List TradeRequest :=
  let vres := validate_idempotency cache now signal.idempotency_key
  if vres.1 = false then
    (fail_result "Idempotency-Key bereits verwendet", vres.2, [])
  else
    let core := execute_signal_core b config signal
    (core.1, vres.2, core.2)

/-- Translation of `TradingEngine.modify_position` (trading.py lines 349-373).
Returns the reported success together with the requests sent. -/
def modify_position (b : Broker) (ticket : ℤ) (sl : Option ℚ) (tp : Option ℚ) :
    Bool × List TradeRequest :=
  match b.positions_by_ticket ticket with
  | [] => (false, [])
  | pos :: _ =>
    let request : TradeRequest :=
      { action := TRADE_ACTION_SLTP
        symbol := pos.symbol
        position := some ticket
        sl := some (orElseQ sl pos.sl)
        tp := some (orElseQ tp pos.tp) }
    (decide ((b.order_send request).retcode = TRADE_RETCODE_DONE), [request])

/-- Translation of `TradingEngine.close_position` (trading.py lines 375-407).
Returns the reported success together with the requests sent. -/
def close_position (b : Broker) (ticket : ℤ) (volume : Option ℚ) :
    Bool × List TradeRequest :=
  match b.positions_by_ticket ticket with
  | [] => (false, [])
  | pos :: _ =>
    let close_volume := orElseQ volume pos.volume
    let order_type :=
      if pos.type = POSITION_TYPE_BUY then ORDER_TYPE_SELL else ORDER_TYPE_BUY
    let request : TradeRequest :=
      { action := TRADE_ACTION_DEAL
        symbol := pos.symbol
        volume := some close_volume
        type := some order_type
        position := some ticket
        deviation := some 20
        magic := some pos.magic
        comment := some ("Close position " ++ toString ticket)
        type_time := some ORDER_TIME_GTC
        type_filling := some ORDER_FILLING_IOC }
    (decide ((b.order_send request).retcode = TRADE_RETCODE_DONE), [request])

/-- Translation of `AccountManager.get_account_summary` (account.py lines
46-71): a field-for-field copy of the account-info dictionary. -/
def get_account_summary (b : Broker) : Option AccountSummary :=
  match b.get_account_info with
  | none => none
  | some a =>
    some
      { login := a.login
        server := a.server
        balance := a.balance
        equity := a.equity
        margin := a.margin
        free_margin := a.free_margin
        margin_level := a.margin_level
        currency := a.currency
        leverage := a.leverage
        profit := a.profit
        company := a.company
        name := a.name
        server_time := a.server_time }

/-- Translation of `AccountManager.get_margin_info` (account.py lines 73-90). -/
def get_margin_info (b : Broker) (symbol : String) : Option MarginInfo :=
  match b.raw_symbol_info symbol with
  | none => none
  | some s =>
    some
      { symbol := symbol
        margin_required := s.margin_required
        margin_mode := s.margin_mode
        margin_currency := s.margin_currency
        margin_rate := s.margin_rate }

/-- Translation of `AccountManager.calculate_margin_required` (account.py
lines 92-124).  The forex and futures branches re-read the raw symbol info
for `trade_contract_size`, as the source does. -/
def calculate_margin_required (b : Broker) (symbol : String) (volume : ℚ)
    (price : ℚ) : Option ℚ :=
  match get_margin_info b symbol with
  | none => none
  | some margin_info =>
    if margin_info.margin_mode = SYMBOL_CALC_MODE_FOREX then
      match get_account_summary b with
      | none => none
      | some account_info =>
        match b.raw_symbol_info symbol with
        | none => none
        | some raw =>
          some (raw.trade_contract_size * volume / (account_info.leverage : ℚ))
    else if margin_info.margin_mode = SYMBOL_CALC_MODE_FUTURES then
      match b.raw_symbol_info symbol with
      | none => none
      | some raw =>
        some (raw.trade_contract_size * volume * margin_info.margin_rate)
    else some (margin_info.margin_required * volume)

/-- Translation of `AccountManager.check_margin_sufficient` (account.py lines
126-142). -/
def check_margin_sufficient (b : Broker) (symbol : String) (volume : ℚ)
    (price : ℚ) : Bool :=
  match get_account_summary b with
  | none => false
  | some account_summary =>
    match calculate_margin_required b symbol volume price with
    | none => false
    | some required_margin =>
      decide (account_summary.free_margin ≥ required_margin)

/-- Lot-sizing algorithm exactly as the specification words it (section 4.2):
identical to the source computation except that step 7 rounds to the nearest
multiple of the lot step with ties rounded half-up, the rounding mode the
specification claims. -/
def spec_lot_size (balance : ℚ) (risk_config : RiskConfig)
    (point tick_value contract_size : ℚ) (sl_points : ℚ) (config : Config) :
    Option ℚ :=
  let risk_amount :=
    match risk_config.fixed_amount with
    | some f => f
    | none => balance * (risk_config.percent / 100)
  let risk_amount := min risk_amount (balance * (risk_config.max_risk_per_trade / 100))
  let loss_per_lot := sl_points * point * (tick_value * contract_size)
  if loss_per_lot ≤ 0 then none
  else
    let lot := risk_amount / loss_per_lot
    let lot := min (max lot config.MIN_LOT_SIZE) config.MAX_LOT_SIZE
    some ((round (lot / config.LOT_STEP) : ℚ) * config.LOT_STEP)

/-- Concrete EURUSD-style symbol metadata used by the witnesses: point
0.00001, tick value 1, contract size 100000. -/
def sampleSymbol : SymbolInfo :=
  { name := "EURUSD"
    digits := 5
    point := 1 / 100000
    tick_value := 1
    contract_size := 100000
    margin_required := 0
    spread := 10
    is_trade_allowed := true }

/-- Concrete account used by the witnesses: balance 10000, free margin 4000,
leverage 100. -/
def sampleAccount : AccountInfo :=
  { login := 1
    server := "Demo"
    balance := 10000
    equity := 10000
    margin := 0
    free_margin := 4000
    margin_level := 0
    currency := "USD"
    leverage := 100
    profit := 0
    company := "Broker"
    name := "Trader"
    server_time := 0 }

/-- Concrete open BUY position (ticket 1) used by the pass-through witnesses. -/
def samplePosition : Position :=
  { ticket := 1
    symbol := "EURUSD"
    type := POSITION_TYPE_BUY
    volume := 1 / 10
    price_open := 11 / 10
    price_current := 11 / 10
    sl := 109 / 100
    tp := 111 / 100
    profit := 0
    swap := 0
    comment := ""
    magic := 7
    time := 0 }

/-- Concrete broker environment used by the witnesses: quotes EURUSD at
1.1000, forex margin mode, accepts every order. -/
def sampleBroker : Broker :=
  { subscribe_symbol := fun _ => true
    get_symbol_info := fun s => if s = "EURUSD" then some sampleSymbol else none
    get_account_info := some sampleAccount
    symbol_info_tick := fun s =>
      if s = "EURUSD" then some { ask := 11 / 10, bid := 11 / 10 } else none
    raw_symbol_info := fun s =>
      if s = "EURUSD" then
        some
          { margin_required := 0
            margin_mode := SYMBOL_CALC_MODE_FOREX
            margin_currency := "USD"
            margin_rate := 1
            trade_contract_size := 100000 }
      else none
    order_send := fun _ =>
      { retcode := TRADE_RETCODE_DONE, order := 42, position := 43
        price := 11 / 10, time := 1700000000, comment := "done" }
    positions_by_ticket := fun t => if t = 1 then [samplePosition] else [] }

/-- Default configuration values of app/config.py: min lot 0.01, max lot 100,
lot step 0.01, stop level 5 pips. -/
def defaultConfig : Config := {}

/-- Symbol whose numbers make the lot-step rounding hit an exact tie:
point 1, tick value 1, contract size 100. -/
def tieSymbol : SymbolInfo :=
  { name := "TIE"
    digits := 2
    point := 1
    tick_value := 1
    contract_size := 100
    margin_required := 0
    spread := 1
    is_trade_allowed := true }

/-- Broker environment quoting the tie symbol, otherwise like `sampleBroker`. -/
def tieBroker : Broker :=
  { sampleBroker with
    get_symbol_info := fun s => if s = "TIE" then some tieSymbol else none }

/-- Market BUY signal on EURUSD with 1 percent risk and a 20-pip stop, the
input of the specification's lot-sizing and margin-gating examples. -/
def sampleSignal : TradingSignal :=
  { strategy := "s"
    symbol := "EURUSD"
    side := OrderSide.buy
    order_type := OrderType.market
    risk := { percent := 1, fixed_amount := none, max_risk_per_trade := 2 }
    sl := { pips := some 20, price := none, atr_multiplier := none }
    tp := { pips := none, price := none, risk_reward_ratio := none }
    price := none
    comment := ""
    idempotency_key := ""
    magic_number := 0 }

/-- Signal identical to `sampleSignal` but with no stop configuration at all,
so the derived stop distance is 0 points. -/
def invalidStopSignal : TradingSignal :=
  { sampleSignal with sl := { pips := none, price := none, atr_multiplier := none } }

/-- Signal identical to `sampleSignal` but carrying the non-empty idempotency
key "k". -/
def keyedSignal : TradingSignal :=
  { sampleSignal with idempotency_key := "k" }

attribute [local semireducible] Rat.mul Rat.inv Rat.add Rat.sub

/-- Helper: whatever happens downstream, `execute_signal` returns exactly the
cache state produced by the idempotency check. -/
theorem execute_signal_cache_eq (b : Broker) (cfg : Config) (cache : Cache)
    (now : ℤ) (sig : TradingSignal) :
    (execute_signal b cfg cache now sig).2.1 =
      (validate_idempotency cache now sig.idempotency_key).2 := by
  simp only [execute_signal]
  split <;> rfl

/-- Helper: when the idempotency check rejects, `execute_signal` returns the
duplicate-key failure, the unchanged cache, and no broker requests. -/
theorem execute_signal_of_rejected (b : Broker) (cfg : Config) (cache : Cache)
    (now : ℤ) (sig : TradingSignal) (c : Cache)
    (h : validate_idempotency cache now sig.idempotency_key = (false, c)) :
    execute_signal b cfg cache now sig =
      (fail_result "Idempotency-Key bereits verwendet", c, []) := by
  simp only [execute_signal, h, if_true]

/-- Helper: an entry appended for a key absent from the cache is found by a
lookup after filtering, provided the filter keeps it. -/
theorem cache_lookup_filter_append (c : Cache) (k : String) (v : ℤ)
    (p : String × ℤ → Bool) (h : cache_lookup c k = none) (hp : p (k, v) = true) :
    cache_lookup (List.filter p (c ++ [(k, v)])) k = some v := by
  induction c with
  | nil => simp [List.filter, hp, cache_lookup]
  | cons head t ih =>
    obtain ⟨a, w⟩ := head
    unfold cache_lookup at h
    by_cases hak : a = k
    · rw [if_pos hak] at h
      exact absurd h (by simp)
    · rw [if_neg hak] at h
      rw [List.cons_append, List.filter_cons]
      cases hpa : p (a, w) with
      | true => simpa [cache_lookup, hak] using ih h
      | false => exact ih h

/-- Helper: a non-empty key already present in the cache is rejected and the
cache is returned unchanged. -/
theorem validate_idempotency_of_mem (cache : Cache) (now t : ℤ) (key : String)
    (hk : key ≠ "") (h : cache_lookup cache key = some t) :
    validate_idempotency cache now key = (false, cache) := by
  unfold validate_idempotency
  rw [if_neg hk, h]

/-- Helper: a non-empty key absent from the cache is admitted, and its record
is found in the resulting cache stamped with the admission time. -/
theorem validate_idempotency_of_fresh (cache : Cache) (now : ℤ) (key : String)
    (hk : key ≠ "") (h : cache_lookup cache key = none) :
    (validate_idempotency cache now key).1 = true ∧
      cache_lookup (validate_idempotency cache now key).2 key = some now := by
  unfold validate_idempotency
  rw [if_neg hk, h]
  refine ⟨rfl, ?_⟩
  apply cache_lookup_filter_append _ _ _ _ h
  simp only [decide_eq_true_eq, idempotency_ttl]
  omega

/-- Helper: when the symbol metadata makes the loss per lot non-positive,
`calculate_lot_size` returns `None`. -/
theorem calculate_lot_size_nonpos (b : Broker) (cfg : Config) (symbol : String)
    (risk : RiskConfig) (sl_points : ℚ) (si : SymbolInfo)
    (hsi : b.get_symbol_info symbol = some si)
    (hloss : sl_points * si.point * (si.tick_value * si.contract_size) ≤ 0) :
    calculate_lot_size b cfg symbol risk sl_points = none := by
  unfold calculate_lot_size
  rw [hsi]
  cases b.get_account_info with
  | none => rfl
  | some acc => simp only [if_pos hloss]

/-- C9: for every state of the idempotency guard, an Admit call with an empty
key returns admitted and leaves the cache completely unchanged. -/
theorem validate_idempotency_empty_key_admits (cache : Cache) (now : ℤ) :
    validate_idempotency cache now "" = (true, cache) := by
  unfold validate_idempotency
  rw [if_pos rfl]

/-- C3 counterexample: key "k" was recorded at time 0 and the Admit call
happens at time 4000, so the record's age 4000 exceeds the 3600-second
retention window; the claim says the call admits the key and overwrites the
record with the current time, but the code rejects the key and leaves the
stale record untouched. -/
theorem validate_idempotency_expired_key_rejected_cex :
    idempotency_ttl < 4000 - 0 ∧
      validate_idempotency [("k", 0)] 4000 "k" = (false, [("k", 0)]) := by
  decide

/-- C3 (amended): an Admit call with a non-empty key whose record is stored —
even one whose age strictly exceeds the retention window — does not treat the
record as absent: it rejects the key and leaves the cache unchanged.  Expired
records are swept only as a side effect of an Admit call that inserts some
other, new key. -/
theorem validate_idempotency_expired_record_still_rejects (cache : Cache)
    (now t : ℤ) (key : String) (hk : key ≠ "")
    (h : cache_lookup cache key = some t)
    (hexp : idempotency_ttl < now - t) :
    validate_idempotency cache now key = (false, cache) :=
  validate_idempotency_of_mem cache now t key hk h

/-- Witness for C3's amended theorem at the counterexample input. -/
theorem validate_idempotency_expired_record_still_rejects_witness :
    validate_idempotency [("k", 0)] 4000 "k" = (false, [("k", 0)]) :=
  validate_idempotency_expired_record_still_rejects [("k", 0)] 4000 0 "k"
    (by decide) (by decide) (by decide)

/-- C2: if a first ExecuteSignal call with a non-empty idempotency key was
admitted (its record inserted), then a second ExecuteSignal call carrying the
same key within the retention window — against any broker environment and
configuration, so regardless of how the first call's broker submission went —
returns the duplicate-key failure, leaves the cache unchanged and issues no
broker request. -/
theorem execute_signal_duplicate_key_rejected (b1 b2 : Broker)
    (cfg1 cfg2 : Config) (cache : Cache) (t1 t2 : ℤ)
    (sig1 sig2 : TradingSignal)
    (hkey : sig1.idempotency_key ≠ "")
    (hsame : sig2.idempotency_key = sig1.idempotency_key)
    (hfresh : cache_lookup cache sig1.idempotency_key = none)
    (hage : t2 - t1 ≤ idempotency_ttl) :
    (validate_idempotency cache t1 sig1.idempotency_key).1 = true ∧
      (execute_signal b2 cfg2 (execute_signal b1 cfg1 cache t1 sig1).2.1 t2 sig2).1 =
        fail_result "Idempotency-Key bereits verwendet" ∧
      (execute_signal b2 cfg2 (execute_signal b1 cfg1 cache t1 sig1).2.1 t2 sig2).2.1 =
        (execute_signal b1 cfg1 cache t1 sig1).2.1 ∧
      (execute_signal b2 cfg2 (execute_signal b1 cfg1 cache t1 sig1).2.1 t2 sig2).2.2 = [] := by
  obtain ⟨hadm, hmem⟩ :=
    validate_idempotency_of_fresh cache t1 sig1.idempotency_key hkey hfresh
  have hc1 : (execute_signal b1 cfg1 cache t1 sig1).2.1 =
      (validate_idempotency cache t1 sig1.idempotency_key).2 :=
    execute_signal_cache_eq b1 cfg1 cache t1 sig1
  have hrej : validate_idempotency (execute_signal b1 cfg1 cache t1 sig1).2.1 t2
      sig2.idempotency_key = (false, (execute_signal b1 cfg1 cache t1 sig1).2.1) := by
    apply validate_idempotency_of_mem _ _ t1
    · rw [hsame]; exact hkey
    · rw [hc1, hsame]; exact hmem
  have h2 := execute_signal_of_rejected b2 cfg2
    (execute_signal b1 cfg1 cache t1 sig1).2.1 t2 sig2 _ hrej
  refine ⟨hadm, ?_, ?_, ?_⟩ <;> rw [h2]

/-- Witness for C2 at a concrete input: two calls with key "k" at times 0 and
10 against the sample broker; the second is rejected as a duplicate. -/
theorem execute_signal_duplicate_key_rejected_witness :
    (validate_idempotency [] 0 keyedSignal.idempotency_key).1 = true ∧
      (execute_signal sampleBroker defaultConfig
          (execute_signal sampleBroker defaultConfig [] 0 keyedSignal).2.1 10 keyedSignal).1 =
        fail_result "Idempotency-Key bereits verwendet" ∧
      (execute_signal sampleBroker defaultConfig
          (execute_signal sampleBroker defaultConfig [] 0 keyedSignal).2.1 10 keyedSignal).2.1 =
        (execute_signal sampleBroker defaultConfig [] 0 keyedSignal).2.1 ∧
      (execute_signal sampleBroker defaultConfig
          (execute_signal sampleBroker defaultConfig [] 0 keyedSignal).2.1 10 keyedSignal).2.2 = [] :=
  execute_signal_duplicate_key_rejected sampleBroker sampleBroker defaultConfig
    defaultConfig [] 0 10 keyedSignal keyedSignal (by decide) rfl rfl (by decide)

/-- C4 counterexample: balance 10000, 1 percent risk, symbol point 1, tick
value 1, contract size 100, stop 40 points makes the raw lot exactly 0.025,
an exact tie at lot step 0.01.  The code (Python `round`, ties to even)
returns 0.02, while the claim's round-half-up rule yields 0.03. -/
theorem calculate_lot_size_tie_rounds_half_even_cex :
    calculate_lot_size tieBroker defaultConfig "TIE"
        { percent := 1, fixed_amount := none, max_risk_per_trade := 2 } 40 =
      some (1 / 50) ∧
      spec_lot_size 10000 { percent := 1, fixed_amount := none, max_risk_per_trade := 2 }
          1 1 100 40 defaultConfig =
        some (3 / 100) ∧
      (1 / 50 : ℚ) ≠ 3 / 100 := by
  decide

/-- C4 (amended): for present symbol metadata and account snapshot and a
positive loss per lot, the sizing returns exactly the claimed formula —
risk amount (truthy fixed amount, else balance·percent/100) capped at
balance·max_risk_per_trade/100, divided by stop_points·point·tick_value·
contract_size, clamped to the configured lot bounds — except that the final
rounding to the nearest lot-step multiple resolves ties half-to-even
(Python `round`), not half-up. -/
theorem calculate_lot_size_formula (b : Broker) (cfg : Config) (symbol : String)
    (risk : RiskConfig) (sl_points : ℚ) (si : SymbolInfo) (acc : AccountInfo)
    (hsi : b.get_symbol_info symbol = some si)
    (hacc : b.get_account_info = some acc)
    (hfix : risk.fixed_amount ≠ some 0)
    (hpos : 0 < sl_points * si.point * (si.tick_value * si.contract_size)) :
    calculate_lot_size b cfg symbol risk sl_points =
      some ((roundHalfEven
        (min (max
            (min (match risk.fixed_amount with
                  | some f => f
                  | none => acc.balance * (risk.percent / 100))
              (acc.balance * (risk.max_risk_per_trade / 100)) /
              (sl_points * si.point * (si.tick_value * si.contract_size)))
            cfg.MIN_LOT_SIZE) cfg.MAX_LOT_SIZE / cfg.LOT_STEP) : ℚ) * cfg.LOT_STEP) := by
  unfold calculate_lot_size
  rw [hsi, hacc]
  have hns : ¬ sl_points * si.point * (si.tick_value * si.contract_size) ≤ 0 :=
    not_le.mpr hpos
  cases hf : risk.fixed_amount with
  | none => simp [truthyQ, hns]
  | some f =>
    have hf0 : f ≠ 0 := by
      intro h0
      exact hfix (by rw [hf, h0])
    simp [truthyQ, hf0, hns]

/-- Witness for C4's amended theorem at the specification's own example:
balance 10000, 1 percent risk, point 0.00001, tick value 1, contract size
100000, 20-point stop, limits [0.01, 100], step 0.01 gives lot size 5.00. -/
theorem calculate_lot_size_formula_witness :
    calculate_lot_size sampleBroker defaultConfig "EURUSD"
        { percent := 1, fixed_amount := none, max_risk_per_trade := 2 } 20 = some 5 := by
  rw [calculate_lot_size_formula sampleBroker defaultConfig "EURUSD"
    { percent := 1, fixed_amount := none, max_risk_per_trade := 2 } 20
    sampleSymbol sampleAccount (by decide) rfl (by decide) (by decide)]
  decide

/-- C5 counterexample: BUY at entry 1.1000 on a point-0.00001 symbol with
both a 10-pip target distance and an explicit target price 1.2 supplied; the
code resolves the target from the pips (1.1001), not from the explicit price
as the claim's precedence order says. -/
theorem calculate_sl_tp_tp_pips_beats_price_cex :
    calculate_sl_tp_prices sampleBroker defaultConfig "EURUSD" OrderSide.buy (11 / 10)
        { pips := none, price := none, atr_multiplier := none }
        { pips := some 10, price := some (6 / 5), risk_reward_ratio := none } =
      (none, some (11001 / 10000)) ∧
      (11001 / 10000 : ℚ) = 11 / 10 + 10 * (1 / 100000) ∧
      (11001 / 10000 : ℚ) ≠ 6 / 5 := by
  decide

/-- C5 (amended): the target source precedence is pip distance first (added
on BUY, subtracted on SELL), then explicit price, then — when a truthy
risk:reward ratio and a truthy resolved stop exist — entry ± |entry-stop|·
ratio; with no source the target stays unset.  The resolved raw target is
then subjected to the minimum-distance push.  In particular, when both a pip
distance and an explicit price are supplied, the pip distance wins. -/
theorem calculate_sl_tp_prices_target_precedence (b : Broker) (cfg : Config)
    (symbol : String) (side : OrderSide) (entry : ℚ) (slc : StopLossConfig)
    (tpc : TakeProfitConfig) (si : SymbolInfo)
    (hsi : b.get_symbol_info symbol = some si) :
    (calculate_sl_tp_prices b cfg symbol side entry slc tpc).2 =
      (let sl_price := resolve_sl_price si side entry slc
       let tp_raw :=
         if truthyZ tpc.pips then
           if side = OrderSide.buy then some (entry + (tpc.pips.getD 0 : ℚ) * si.point)
           else some (entry - (tpc.pips.getD 0 : ℚ) * si.point)
         else if truthyQ tpc.price then tpc.price
         else if truthyQ tpc.risk_reward_ratio ∧ truthyQ sl_price then
           if side = OrderSide.buy then
             some (entry + |entry - sl_price.getD 0| * tpc.risk_reward_ratio.getD 0)
           else some (entry - |entry - sl_price.getD 0| * tpc.risk_reward_ratio.getD 0)
         else none
       let min_distance := (cfg.STOP_LEVEL_PIPS : ℚ) * si.point
       if truthyQ tp_raw ∧ |entry - tp_raw.getD 0| < min_distance then
         if side = OrderSide.buy then some (entry + min_distance)
         else some (entry - min_distance)
       else tp_raw) := by
  simp only [calculate_sl_tp_prices, resolve_tp_price, hsi]

/-- Witness for C5's amended theorem: with both a 10-pip distance and an
explicit price 1.2 supplied on a BUY at 1.1000, the pip distance is used. -/
theorem calculate_sl_tp_prices_target_precedence_witness :
    (calculate_sl_tp_prices sampleBroker defaultConfig "EURUSD" OrderSide.buy (11 / 10)
        { pips := none, price := none, atr_multiplier := none }
        { pips := some 10, price := some (6 / 5), risk_reward_ratio := none }).2 =
      some (11001 / 10000) := by
  rw [calculate_sl_tp_prices_target_precedence sampleBroker defaultConfig "EURUSD"
    OrderSide.buy (11 / 10)
    { pips := none, price := none, atr_multiplier := none }
    { pips := some 10, price := some (6 / 5), risk_reward_ratio := none }
    sampleSymbol (by decide)]
  decide

/-- C6 counterexample: BUY at entry 0.00002 with a 2-pip stop on a
point-0.00001 symbol resolves the stop to exactly 0.0, whose distance
0.00002 from entry is below the 5-pip minimum 0.00005; the claim says every
such stop is pushed to exactly the minimum distance (here -0.00003), but
the code's truthiness test skips a 0.0 price and leaves it unchanged. -/
theorem calculate_sl_tp_zero_stop_skips_clamp_cex :
    calculate_sl_tp_prices sampleBroker defaultConfig "EURUSD" OrderSide.buy (2 / 100000)
        { pips := some 2, price := none, atr_multiplier := none }
        { pips := none, price := none, risk_reward_ratio := none } =
      (some 0, none) ∧
      |(2 / 100000 : ℚ) - 0| < (5 : ℚ) * (1 / 100000) ∧
      some (0 : ℚ) ≠ some ((2 / 100000 : ℚ) - 5 * (1 / 100000)) := by
  decide

/-- C6 (amended): each resolved leg that is truthy (non-`None` and nonzero)
and strictly closer to entry than STOP_LEVEL_PIPS·point is replaced by the
price at exactly that distance on the side implied by the order direction
(stop below / target above entry on BUY, mirrored on SELL); a leg at or
beyond the minimum distance — or a leg resolved to exactly 0.0, which the
truthiness test skips — is left unchanged, and the two leg clampings do not
affect each other. -/
theorem calculate_sl_tp_prices_min_distance_clamp (b : Broker) (cfg : Config)
    (symbol : String) (side : OrderSide) (entry : ℚ) (slc : StopLossConfig)
    (tpc : TakeProfitConfig) (si : SymbolInfo)
    (hsi : b.get_symbol_info symbol = some si) :
    calculate_sl_tp_prices b cfg symbol side entry slc tpc =
      (let s := resolve_sl_price si side entry slc
       let t := resolve_tp_price si side entry tpc s
       let min_distance := (cfg.STOP_LEVEL_PIPS : ℚ) * si.point
       ((if truthyQ s ∧ |entry - s.getD 0| < min_distance then
           if side = OrderSide.buy then some (entry - min_distance)
           else some (entry + min_distance)
         else s),
        (if truthyQ t ∧ |entry - t.getD 0| < min_distance then
           if side = OrderSide.buy then some (entry + min_distance)
           else some (entry - min_distance)
         else t))) := by
  simp only [calculate_sl_tp_prices, hsi]

/-- Witness for C6's amended theorem at the specification's clamp example:
BUY at 1.1000 with explicit stop 1.09998 (distance 0.00002 below the 5-pip
minimum 0.00005) resolves the stop to 1.09995. -/
theorem calculate_sl_tp_prices_min_distance_clamp_witness :
    calculate_sl_tp_prices sampleBroker defaultConfig "EURUSD" OrderSide.buy (11 / 10)
        { pips := none, price := some (109998 / 100000), atr_multiplier := none }
        { pips := none, price := none, risk_reward_ratio := none } =
      (some (109995 / 100000), none) := by
  rw [calculate_sl_tp_prices_min_distance_clamp sampleBroker defaultConfig "EURUSD"
    OrderSide.buy (11 / 10)
    { pips := none, price := some (109998 / 100000), atr_multiplier := none }
    { pips := none, price := none, risk_reward_ratio := none }
    sampleSymbol (by decide)]
  decide

/-- C7: whenever the idempotency check admits, the symbol is available with
metadata and a tick, but the derived stop distance makes the loss per lot
non-positive (in particular a stop distance of 0 points), ExecuteSignal
fails with the sizing error the code raises on an invalid stop distance
("Lot-Größe konnte nicht berechnet werden") and no broker order-submission
request is issued. -/
theorem execute_signal_invalid_stop_distance (b : Broker) (cfg : Config)
    (cache : Cache) (now : ℤ) (sig : TradingSignal) (si : SymbolInfo) (tick : Tick)
    (hpass : (validate_idempotency cache now sig.idempotency_key).1 = true)
    (hsub : b.subscribe_symbol sig.symbol = true)
    (hsi : b.get_symbol_info sig.symbol = some si)
    (htick : b.symbol_info_tick sig.symbol = some tick)
    (hloss : derive_sl_points sig.sl
        (if sig.side = OrderSide.buy then tick.ask else tick.bid) si.point *
        si.point * (si.tick_value * si.contract_size) ≤ 0) :
    (execute_signal b cfg cache now sig).1 =
      fail_result "Lot-Größe konnte nicht berechnet werden" ∧
      (execute_signal b cfg cache now sig).2.2 = [] := by
  have hcalc := calculate_lot_size_nonpos b cfg sig.symbol sig.risk
    (derive_sl_points sig.sl
      (if sig.side = OrderSide.buy then tick.ask else tick.bid) si.point)
    si hsi hloss
  constructor <;>
    simp only [execute_signal, execute_signal_core, hpass, hsub, hsi, htick, hcalc] <;>
    simp

/-- Witness for C7: a signal with no stop configuration at all derives a stop
distance of 0 points against the sample broker and is rejected without any
broker call. -/
theorem execute_signal_invalid_stop_distance_witness :
    (execute_signal sampleBroker defaultConfig [] 0 invalidStopSignal).1 =
      fail_result "Lot-Größe konnte nicht berechnet werden" ∧
      (execute_signal sampleBroker defaultConfig [] 0 invalidStopSignal).2.2 = [] :=
  execute_signal_invalid_stop_distance sampleBroker defaultConfig [] 0
    invalidStopSignal sampleSymbol { ask := 11 / 10, bid := 11 / 10 }
    (by decide) (by decide) (by decide) (by decide) (by decide)

/-- C8: with the raw symbol margin data and the account snapshot available,
the required-margin estimate is contract_size·lot/leverage in forex mode,
contract_size·lot·margin_rate in futures mode, and the broker-quoted
margin_required·lot otherwise, and the margin check reports sufficient if
and only if the account's free margin is at least that estimate. -/
theorem check_margin_sufficient_formula (b : Broker) (symbol : String)
    (volume price : ℚ) (rs : RawSymbolInfo) (acc : AccountInfo)
    (hrs : b.raw_symbol_info symbol = some rs)
    (hacc : b.get_account_info = some acc) :
    calculate_margin_required b symbol volume price =
      some (if rs.margin_mode = SYMBOL_CALC_MODE_FOREX then
              rs.trade_contract_size * volume / (acc.leverage : ℚ)
            else if rs.margin_mode = SYMBOL_CALC_MODE_FUTURES then
              rs.trade_contract_size * volume * rs.margin_rate
            else rs.margin_required * volume) ∧
      (check_margin_sufficient b symbol volume price = true ↔
        acc.free_margin ≥
          (if rs.margin_mode = SYMBOL_CALC_MODE_FOREX then
             rs.trade_contract_size * volume / (acc.leverage : ℚ)
           else if rs.margin_mode = SYMBOL_CALC_MODE_FUTURES then
             rs.trade_contract_size * volume * rs.margin_rate
           else rs.margin_required * volume)) := by
  have hreq : calculate_margin_required b symbol volume price =
      some (if rs.margin_mode = SYMBOL_CALC_MODE_FOREX then
              rs.trade_contract_size * volume / (acc.leverage : ℚ)
            else if rs.margin_mode = SYMBOL_CALC_MODE_FUTURES then
              rs.trade_contract_size * volume * rs.margin_rate
            else rs.margin_required * volume) := by
    unfold calculate_margin_required get_margin_info get_account_summary
    rw [hrs, hacc]
    by_cases h1 : rs.margin_mode = SYMBOL_CALC_MODE_FOREX
    · simp [h1]
    · by_cases h2 : rs.margin_mode = SYMBOL_CALC_MODE_FUTURES
      · simp [h1, h2, SYMBOL_CALC_MODE_FOREX, SYMBOL_CALC_MODE_FUTURES]
      · simp [h1, h2]
  refine ⟨hreq, ?_⟩
  unfold check_margin_sufficient get_account_summary
  rw [hacc, hreq]
  simp

/-- Witness for C8 at the specification's margin example: forex EURUSD,
contract size 100000, leverage 100, lot 5.0 needs margin 5000, and with free
margin 4000 the check reports insufficient. -/
theorem check_margin_sufficient_formula_witness :
    calculate_margin_required sampleBroker "EURUSD" 5 (11 / 10) = some 5000 ∧
      check_margin_sufficient sampleBroker "EURUSD" 5 (11 / 10) = false := by
  have h := check_margin_sufficient_formula sampleBroker "EURUSD" 5 (11 / 10)
    { margin_required := 0
      margin_mode := SYMBOL_CALC_MODE_FOREX
      margin_currency := "USD"
      margin_rate := 1
      trade_contract_size := 100000 }
    sampleAccount (by decide) rfl
  constructor
  · rw [h.1]; decide
  · cases hb : check_margin_sufficient sampleBroker "EURUSD" 5 (11 / 10) with
    | false => rfl
    | true => exact absurd (h.2.mp hb) (by decide)

/-- C1: against a broker whose free margin (4000) is below the required
margin (5000) for the computed lot size 5.0, ExecuteSignal nevertheless
reports success and issues the broker order-submission request — the code
never invokes the margin sufficiency check, contradicting the claim that
such a signal yields an InsufficientMargin failure with no submission. -/
theorem execute_signal_submits_despite_insufficient_margin :
    check_margin_sufficient sampleBroker "EURUSD" 5 (11 / 10) = false ∧
      (execute_signal sampleBroker defaultConfig [] 0 sampleSignal).1.success = true ∧
      (execute_signal sampleBroker defaultConfig [] 0 sampleSignal).1.lot_size = some 5 ∧
      (execute_signal sampleBroker defaultConfig [] 0 sampleSignal).1.error_message = none ∧
      (execute_signal sampleBroker defaultConfig [] 0 sampleSignal).2.2.length = 1 := by
  decide

/-- C10: for every position found for the ticket, the modify pass-through
sends a stop-loss/take-profit of the position's current values whenever the
corresponding argument is 0.0 or absent (so passing zero cannot clear a
stop or target), and the close pass-through closes the position's full
volume whenever the volume argument is 0.0 or absent. -/
theorem modify_close_zero_treated_as_absent (b : Broker) (ticket : ℤ)
    (pos : Position) (rest : List Position)
    (hpos : b.positions_by_ticket ticket = pos :: rest) :
    (modify_position b ticket (some 0) (some 0)).2 =
      [{ action := TRADE_ACTION_SLTP, symbol := pos.symbol, position := some ticket,
         sl := some pos.sl, tp := some pos.tp }] ∧
      (modify_position b ticket none none).2 =
        [{ action := TRADE_ACTION_SLTP, symbol := pos.symbol, position := some ticket,
           sl := some pos.sl, tp := some pos.tp }] ∧
      (close_position b ticket (some 0)).2 =
        [{ action := TRADE_ACTION_DEAL, symbol := pos.symbol,
           volume := some pos.volume,
           type := some (if pos.type = POSITION_TYPE_BUY then ORDER_TYPE_SELL
                         else ORDER_TYPE_BUY),
           position := some ticket, deviation := some 20, magic := some pos.magic,
           comment := some ("Close position " ++ toString ticket),
           type_time := some ORDER_TIME_GTC, type_filling := some ORDER_FILLING_IOC }] ∧
      (close_position b ticket none).2 =
        [{ action := TRADE_ACTION_DEAL, symbol := pos.symbol,
           volume := some pos.volume,
           type := some (if pos.type = POSITION_TYPE_BUY then ORDER_TYPE_SELL
                         else ORDER_TYPE_BUY),
           position := some ticket, deviation := some 20, magic := some pos.magic,
           comment := some ("Close position " ++ toString ticket),
           type_time := some ORDER_TIME_GTC, type_filling := some ORDER_FILLING_IOC }] := by
  refine ⟨?_, ?_, ?_, ?_⟩ <;> simp [modify_position, close_position, hpos, orElseQ]

/-- Witness for C10 on the sample broker's open BUY position (ticket 1,
stop 1.09, target 1.11, volume 0.1). -/
theorem modify_close_zero_treated_as_absent_witness :
    (modify_position sampleBroker 1 (some 0) (some 0)).2 =
      [{ action := TRADE_ACTION_SLTP, symbol := samplePosition.symbol,
         position := some 1, sl := some samplePosition.sl,
         tp := some samplePosition.tp }] ∧
      (modify_position sampleBroker 1 none none).2 =
        [{ action := TRADE_ACTION_SLTP, symbol := samplePosition.symbol,
           position := some 1, sl := some samplePosition.sl,
           tp := some samplePosition.tp }] ∧
      (close_position sampleBroker 1 (some 0)).2 =
        [{ action := TRADE_ACTION_DEAL, symbol := samplePosition.symbol,
           volume := some samplePosition.volume,
           type := some (if samplePosition.type = POSITION_TYPE_BUY then ORDER_TYPE_SELL
                         else ORDER_TYPE_BUY),
           position := some 1, deviation := some 20, magic := some samplePosition.magic,
           comment := some ("Close position " ++ toString (1 : ℤ)),
           type_time := some ORDER_TIME_GTC, type_filling := some ORDER_FILLING_IOC }] ∧
      (close_position sampleBroker 1 none).2 =
        [{ action := TRADE_ACTION_DEAL, symbol := samplePosition.symbol,
           volume := some samplePosition.volume,
           type := some (if samplePosition.type = POSITION_TYPE_BUY then ORDER_TYPE_SELL
                         else ORDER_TYPE_BUY),
           position := some 1, deviation := some 20, magic := some samplePosition.magic,
           comment := some ("Close position " ++ toString (1 : ℤ)),
           type_time := some ORDER_TIME_GTC, type_filling := some ORDER_FILLING_IOC }] :=
  modify_close_zero_treated_as_absent sampleBroker 1 samplePosition [] (by decide)

end MT5Gateway
